import Mathlib

/-!
Verification development for the blog module of `flaskr` (src/flaskr/blog.py).

The module declares five operations — `index`, `get_post`, `create`, `update`,
`delete` — whose bodies in the repository are all the Python statement `pass`
(see the `Stub` namespace below, which embeds the code as written).  The
intended behaviour of the operations is given only by the specification and
the docstrings; the definitions outside `Stub` are therefore modelled from the
spec, as marked on each one.

Machine integers are modelled as `Nat`; the post store is a list of rows plus
the external user table; timestamps are `Nat` ticks.
-/

/-- A row of the post table: columns `id, author_id, created, title, body`. -/
structure Post where
  id : Nat
  author_id : Nat
  created : Nat
  title : String
  body : String
deriving Repr, DecidableEq

/-- A row of the external user table: only id and display name matter here. -/
structure User where
  id : Nat
  username : String
deriving Repr, DecidableEq

/-- The store: the post table, the external user table, and the counter the
store uses to assign fresh post ids. -/
structure Store where
  posts : List Post
  users : List User
  nextId : Nat
deriving Repr, DecidableEq

/-- The two failure conditions of Post Access Control (HTTP 404 and 403). -/
inductive BlogError where
  | notFound
  | forbidden
deriving Repr, DecidableEq

/-- Outcome handed back by a mutating handler. -/
inductive Resp where
  | validationError
  | redirectIndex
  | notFound
  | forbidden
deriving Repr, DecidableEq

/-- Look up the post with the given id in the store. -/
def findPost (s : Store) (pid : Nat) : Option Post :=
  s.posts.find? (fun p => p.id == pid)

/-- Display name of the user with the given id (empty if absent). -/
def authorName (s : Store) (uid : Nat) : String :=
  ((s.users.find? (fun u => u.id == uid)).map User.username).getD ""

/-- Modelled from the spec: Post Access Control,
`resolve(post_id, current_user_id, enforce_author)` (spec §4.1); the body of
`get_post` in src/flaskr/blog.py is a `pass` stub.  Looks up the Post joined
with its author display name; NotFound if no such post exists; Forbidden when
`check_author` is set and the requester is not the author.  Read-only: the
store component of the result is the input store. -/
def get_post (s : Store) (pid : Nat) (cur : Option Nat) (check_author : Bool) :
    Store × Except BlogError (Post × String) :=
  (s,
    match findPost s pid with
    | none => .error .notFound
    | some p =>
      if check_author ∧ cur ≠ some p.author_id then .error .forbidden
      else .ok (p, authorName s p.author_id))

/-- Modelled from the spec: the create handler (spec §4.3); the body of
`create` in src/flaskr/blog.py is a `pass` stub.  Empty title reports a
validation error and writes nothing; otherwise inserts a new Post with
`author_id` the current user and `created` = now, and redirects to index. -/
def create (s : Store) (uid : Nat) (title bodyText : String) (now : Nat) :
    Store × Resp :=
  if title = "" then (s, .validationError)
  else
    ({ s with
        posts := ⟨s.nextId, uid, now, title, bodyText⟩ :: s.posts,
        nextId := s.nextId + 1 },
      .redirectIndex)

/-- Modelled from the spec: the update handler (spec §4.4); the body of
`update` in src/flaskr/blog.py is a `pass` stub.  Applies Post Access Control
with `enforce_author = true`, propagating NotFound/Forbidden; empty title is a
validation error with no write; otherwise overwrites `title`/`body` of the
post with the given id and redirects to index. -/
def update (s : Store) (pid uid : Nat) (title bodyText : String) :
    Store × Resp :=
  match (get_post s pid (some uid) true).2 with
  | .error .notFound => (s, .notFound)
  | .error .forbidden => (s, .forbidden)
  | .ok _ =>
    if title = "" then (s, .validationError)
    else
      ({ s with
          posts := s.posts.map (fun q =>
            if q.id = pid then { q with title := title, body := bodyText } else q) },
        .redirectIndex)

/-- Modelled from the spec: the delete handler (spec §4.5); the body of
`delete` in src/flaskr/blog.py is a `pass` stub.  Applies Post Access Control
with `enforce_author = true`, propagating NotFound/Forbidden; on success
removes the post permanently and redirects to index. -/
def delete (s : Store) (pid uid : Nat) : Store × Resp :=
  match (get_post s pid (some uid) true).2 with
  | .error .notFound => (s, .notFound)
  | .error .forbidden => (s, .forbidden)
  | .ok _ =>
    ({ s with posts := s.posts.filter (fun q => q.id != pid) }, .redirectIndex)

/-- Newest-first ordering on posts: `created` descending. -/
def newestFirst (a b : Post) : Prop := b.created ≤ a.created

instance : DecidableRel newestFirst := fun a b => Nat.decLe b.created a.created

instance : IsTotal Post newestFirst := ⟨fun a b => Nat.le_total b.created a.created⟩

instance : IsTrans Post newestFirst := ⟨fun _ _ _ hab hbc => le_trans hbc hab⟩

/-- Modelled from the spec: the index handler (spec §4.2); the body of `index`
in src/flaskr/blog.py is a `pass` stub.  Returns all posts ordered by
`created` descending, each joined with its author display name. -/
def index (s : Store) : List (Post × String) :=
  (List.insertionSort newestFirst s.posts).map (fun p => (p, authorName s p.author_id))

namespace Stub

/-- src/flaskr/blog.py:18-21 as written: the body of `index` is `pass`, so the
handler returns None, touches no store, and produces no response. -/
def index (s : Store) : Store × Option (List (Post × String)) := (s, none)

/-- src/flaskr/blog.py:23-35 as written: the body of `get_post` is `pass`. -/
def get_post (s : Store) (_pid : Nat) (_check_author : Bool) :
    Store × Option (Post × String) := (s, none)

/-- src/flaskr/blog.py:38-42 as written: the body of `create` is `pass`. -/
def create (s : Store) (_uid : Nat) (_title _bodyText : String) :
    Store × Option Resp := (s, none)

/-- src/flaskr/blog.py:45-49 as written: the body of `update` is `pass`. -/
def update (s : Store) (_pid _uid : Nat) (_title _bodyText : String) :
    Store × Option Resp := (s, none)

/-- src/flaskr/blog.py:52-60 as written: the body of `delete` is `pass`. -/
def delete (s : Store) (_pid _uid : Nat) : Store × Option Resp := (s, none)

end Stub

/-- A small concrete store used by the witness theorems: one post by user 1,
two users. -/
def samplePost : Post := ⟨1, 1, 10, "Hello", ""⟩

/-- Concrete store holding `samplePost` and users alice (1) and bob (2). -/
def sampleStore : Store := ⟨[samplePost], [⟨1, "alice"⟩, ⟨2, "bob"⟩], 2⟩

/-- C5: a create request with empty title performs no store write (the store
is returned exactly as it was) and reports a validation error. -/
theorem C5_empty_title_no_write (s : Store) (uid : Nat) (title bodyText : String)
    (now : Nat) (h : title = "") :
    create s uid title bodyText now = (s, .validationError) := by
  simp [create, h]

/-- Witness for C5 at a concrete input. -/
theorem C5_empty_title_no_write_witness :
    create sampleStore 1 "" "some body" 99 = (sampleStore, .validationError) :=
  C5_empty_title_no_write sampleStore 1 "" "some body" 99 rfl

/-- C1: for every post P in the store and every user U distinct from P's
author, `get_post` with `check_author` true fails with Forbidden, and hence an
update or delete request by U fails with Forbidden and leaves the store
unchanged, even though U is authenticated (a concrete user id is supplied). -/
theorem C1_non_author_forbidden (s : Store) (pid uid : Nat) (P : Post)
    (hP : findPost s pid = some P) (hne : uid ≠ P.author_id)
    (title bodyText : String) :
    (get_post s pid (some uid) true).2 = .error .forbidden ∧
    update s pid uid title bodyText = (s, .forbidden) ∧
    delete s pid uid = (s, .forbidden) := by
  have hgp : (get_post s pid (some uid) true).2 = .error .forbidden := by
    simp [get_post, hP, hne]
  exact ⟨hgp, by simp [update, hgp], by simp [delete, hgp]⟩

/-- Witness for C1: user 2 is not the author of `samplePost` (user 1). -/
theorem C1_non_author_forbidden_witness :
    (get_post sampleStore 1 (some 2) true).2 = .error .forbidden ∧
    update sampleStore 1 2 "T" "B" = (sampleStore, .forbidden) ∧
    delete sampleStore 1 2 = (sampleStore, .forbidden) :=
  C1_non_author_forbidden sampleStore 1 2 samplePost (by decide) (by decide) "T" "B"

/-- C2: for every post id absent from the store, `get_post` fails with
NotFound for every caller and every `check_author` flag, and update and delete
requests for that id fail with NotFound, leaving the store unchanged,
regardless of which user is authenticated. -/
theorem C2_absent_id_not_found (s : Store) (pid : Nat)
    (h : findPost s pid = none) :
    (∀ cur ca, (get_post s pid cur ca).2 = .error .notFound) ∧
    (∀ uid title bodyText, update s pid uid title bodyText = (s, .notFound)) ∧
    (∀ uid, delete s pid uid = (s, .notFound)) := by
  have hgp : ∀ cur ca, (get_post s pid cur ca).2 = .error .notFound := by
    intro cur ca; simp [get_post, h]
  exact ⟨hgp, fun uid _ _ => by simp [update, hgp], fun uid => by simp [delete, hgp]⟩

/-- Witness for C2: id 7 is absent from `sampleStore`. -/
theorem C2_absent_id_not_found_witness :
    (get_post sampleStore 7 none true).2 = .error .notFound ∧
    update sampleStore 7 1 "T" "B" = (sampleStore, .notFound) ∧
    delete sampleStore 7 1 = (sampleStore, .notFound) :=
  ⟨(C2_absent_id_not_found sampleStore 7 (by decide)).1 none true,
    (C2_absent_id_not_found sampleStore 7 (by decide)).2.1 1 "T" "B",
    (C2_absent_id_not_found sampleStore 7 (by decide)).2.2 1⟩

/-- C3: an update of an existing post by its author succeeds (redirects to
index) and changes only the `title` and `body` fields of that post, leaving
`id`, `author_id` and `created` unchanged, while every other post in the store
is unchanged and the store keeps the same number of posts. -/
theorem C3_author_update_frame (s : Store) (pid : Nat) (P : Post)
    (hP : findPost s pid = some P) (title bodyText : String) (ht : title ≠ "") :
    (update s pid P.author_id title bodyText).2 = .redirectIndex ∧
    (update s pid P.author_id title bodyText).1.posts.length = s.posts.length ∧
    (∀ q ∈ s.posts, q.id ≠ pid → q ∈ (update s pid P.author_id title bodyText).1.posts) ∧
    (∀ q' ∈ (update s pid P.author_id title bodyText).1.posts,
      ∃ q ∈ s.posts, q'.id = q.id ∧ q'.author_id = q.author_id ∧ q'.created = q.created ∧
        (q.id = pid → q'.title = title ∧ q'.body = bodyText) ∧
        (q.id ≠ pid → q' = q)) := by
  have hgp : (get_post s pid (some P.author_id) true).2 = .ok (P, authorName s P.author_id) := by
    simp [get_post, hP]
  have hs : update s pid P.author_id title bodyText =
      ({ s with posts := s.posts.map (fun q =>
          if q.id = pid then { q with title := title, body := bodyText } else q) },
        .redirectIndex) := by
    simp [update, hgp, ht]
  refine ⟨by rw [hs], by rw [hs]; simp, ?_, ?_⟩
  · intro q hq hne
    rw [hs]
    exact List.mem_map.mpr ⟨q, hq, by simp [hne]⟩
  · intro q' hq'
    rw [hs] at hq'
    obtain ⟨q, hq, hfq⟩ := List.mem_map.mp hq'
    refine ⟨q, hq, ?_⟩
    by_cases hqid : q.id = pid
    · subst hfq; simp [hqid]
    · subst hfq; simp [hqid]

/-- Witness for C3: user 1 updates post 1 of `sampleStore` to a new title. -/
theorem C3_author_update_frame_witness :
    (update sampleStore 1 samplePost.author_id "Hello v2" "b2").2 = .redirectIndex ∧
    (update sampleStore 1 samplePost.author_id "Hello v2" "b2").1.posts.length =
      sampleStore.posts.length ∧
    (∀ q ∈ sampleStore.posts, q.id ≠ 1 →
      q ∈ (update sampleStore 1 samplePost.author_id "Hello v2" "b2").1.posts) ∧
    (∀ q' ∈ (update sampleStore 1 samplePost.author_id "Hello v2" "b2").1.posts,
      ∃ q ∈ sampleStore.posts, q'.id = q.id ∧ q'.author_id = q.author_id ∧
        q'.created = q.created ∧
        (q.id = 1 → q'.title = "Hello v2" ∧ q'.body = "b2") ∧
        (q.id ≠ 1 → q' = q)) :=
  C3_author_update_frame sampleStore 1 samplePost (by decide) "Hello v2" "b2" (by decide)

/-- C4: a delete of an existing post by its author succeeds (redirects to
index) and removes the post: a subsequent `get_post` on the resulting store
with the same id yields NotFound for every caller. -/
theorem C4_delete_then_not_found (s : Store) (pid : Nat) (P : Post)
    (hP : findPost s pid = some P) :
    (delete s pid P.author_id).2 = .redirectIndex ∧
    ∀ cur ca, (get_post (delete s pid P.author_id).1 pid cur ca).2 = .error .notFound := by
  have hgp : (get_post s pid (some P.author_id) true).2 = .ok (P, authorName s P.author_id) := by
    simp [get_post, hP]
  have hs : delete s pid P.author_id =
      ({ s with posts := s.posts.filter (fun q => q.id != pid) }, .redirectIndex) := by
    simp [delete, hgp]
  have hfind : findPost (delete s pid P.author_id).1 pid = none := by
    rw [hs]
    apply List.find?_eq_none.mpr
    intro q hq
    have hmem := List.of_mem_filter hq
    simpa using hmem
  exact ⟨by rw [hs], fun cur ca => by simp [get_post, hfind]⟩

/-- Witness for C4: user 1 deletes post 1 of `sampleStore`; the lookup then
fails with NotFound. -/
theorem C4_delete_then_not_found_witness :
    (delete sampleStore 1 samplePost.author_id).2 = .redirectIndex ∧
    (get_post (delete sampleStore 1 samplePost.author_id).1 1 (some 1) true).2 =
      .error .notFound :=
  ⟨(C4_delete_then_not_found sampleStore 1 samplePost (by decide)).1,
    (C4_delete_then_not_found sampleStore 1 samplePost (by decide)).2 (some 1) true⟩

/-- C8: for every existing post id and every permitted caller (either
`check_author` is off, or the caller is the author), `get_post` returns the
post joined with its author display name, and the store component of the
result is exactly the input store (read-only, no mutation). -/
theorem C8_get_post_join_read_only (s : Store) (pid : Nat) (P : Post)
    (cur : Option Nat) (ca : Bool) (hP : findPost s pid = some P)
    (hperm : ca = true → cur = some P.author_id) :
    get_post s pid cur ca = (s, .ok (P, authorName s P.author_id)) := by
  cases ca with
  | false => simp [get_post, hP]
  | true => simp [get_post, hP, hperm rfl]

/-- Witness for C8: the author (user 1) retrieves post 1 of `sampleStore`. -/
theorem C8_get_post_join_read_only_witness :
    get_post sampleStore 1 (some 1) true =
      (sampleStore, .ok (samplePost, authorName sampleStore samplePost.author_id)) :=
  C8_get_post_join_read_only sampleStore 1 samplePost (some 1) true (by decide)
    (fun _ => by decide)

/-- C6: a create with non-empty title by an authenticated user succeeds
(redirects to index) and inserts a new Post whose `author_id` is the current
user; an index of the resulting store shows that new post as the first (most
recent) entry, provided every existing post is older than the new timestamp. -/
theorem C6_create_then_index_first (s : Store) (uid : Nat) (title bodyText : String)
    (now : Nat) (ht : title ≠ "") (hnow : ∀ p ∈ s.posts, p.created < now) :
    (create s uid title bodyText now).2 = .redirectIndex ∧
    (index (create s uid title bodyText now).1).head? =
      some (⟨s.nextId, uid, now, title, bodyText⟩, authorName s uid) := by
  refine ⟨by simp [create, ht], ?_⟩
  have hsort : List.insertionSort newestFirst
      ((⟨s.nextId, uid, now, title, bodyText⟩ : Post) :: s.posts) =
      (⟨s.nextId, uid, now, title, bodyText⟩ : Post) ::
        List.insertionSort newestFirst s.posts := by
    apply List.insertionSort_cons
    intro b hb
    exact le_of_lt (hnow b hb)
  simp [create, ht, index, hsort, authorName]

/-- Witness for C6: user 2 creates a second post in `sampleStore` at tick 99,
later than the existing post (tick 10). -/
theorem C6_create_then_index_first_witness :
    (create sampleStore 2 "Second" "sb" 99).2 = .redirectIndex ∧
    (index (create sampleStore 2 "Second" "sb" 99).1).head? =
      some (⟨sampleStore.nextId, 2, 99, "Second", "sb"⟩, authorName sampleStore 2) :=
  C6_create_then_index_first sampleStore 2 "Second" "sb" 99 (by decide) (by decide)

/-- C7: for every store, index returns exactly the posts of the store (the
projection to posts is a permutation of the post table), ordered by `created`
descending, and each entry is joined with its author display name. -/
theorem C7_index_sorted_join (s : Store) :
    ((index s).map Prod.fst).Perm s.posts ∧
    List.Sorted (fun a b : Post × String => b.1.created ≤ a.1.created) (index s) ∧
    ∀ pr ∈ index s, pr.2 = authorName s pr.1.author_id := by
  refine ⟨?_, ?_, ?_⟩
  · have hproj : (index s).map Prod.fst = List.insertionSort newestFirst s.posts := by
      simp only [index, List.map_map]
      exact List.map_id _
    rw [hproj]
    exact List.perm_insertionSort newestFirst s.posts
  · exact List.Pairwise.map _ (fun a b hab => hab)
      (List.sorted_insertionSort newestFirst s.posts)
  · intro pr hpr
    simp only [index, List.mem_map, List.mem_insertionSort] at hpr
    obtain ⟨p, _, rfl⟩ := hpr
    rfl

/-- C9: the author of a post is set at creation and never reassigned: every
post in the store after a create is either an old post or the new one with
`author_id` the current user; every post after an update keeps the id and
`author_id` of a pre-existing post; every post after a delete already existed;
and `get_post` and index touch no store state (`get_post` hands the store back
unchanged). -/
theorem C9_author_set_once (s : Store) (pid uid : Nat) (title bodyText : String)
    (now : Nat) (cur : Option Nat) (ca : Bool) :
    (get_post s pid cur ca).1 = s ∧
    (∀ q ∈ (create s uid title bodyText now).1.posts,
      q ∈ s.posts ∨ q.author_id = uid) ∧
    (∀ q ∈ (update s pid uid title bodyText).1.posts,
      ∃ p ∈ s.posts, q.id = p.id ∧ q.author_id = p.author_id) ∧
    (∀ q ∈ (delete s pid uid).1.posts, q ∈ s.posts) := by
  refine ⟨rfl, ?_, ?_, ?_⟩
  · intro q hq
    by_cases h : title = ""
    · simp only [create, if_pos h] at hq
      exact Or.inl hq
    · simp only [create, if_neg h, List.mem_cons] at hq
      rcases hq with hq | hq
      · right; rw [hq]
      · exact Or.inl hq
  · intro q hq
    cases hg : (get_post s pid (some uid) true).2 with
    | error e =>
      cases e <;> simp only [update, hg] at hq <;> exact ⟨q, hq, rfl, rfl⟩
    | ok v =>
      by_cases h : title = ""
      · simp only [update, hg, if_pos h] at hq
        exact ⟨q, hq, rfl, rfl⟩
      · simp only [update, hg, if_neg h, List.mem_map] at hq
        obtain ⟨p, hp, hfp⟩ := hq
        by_cases hid : p.id = pid
        · subst hfp; exact ⟨p, hp, by simp [hid]⟩
        · subst hfp; exact ⟨p, hp, by simp [hid]⟩
  · intro q hq
    cases hg : (get_post s pid (some uid) true).2 with
    | error e => cases e <;> simp only [delete, hg] at hq <;> exact hq
    | ok v =>
      simp only [delete, hg, List.mem_filter] at hq
      exact hq.1

/-- C10: as written, every operation of the module has body `pass`: for every
input it returns None, leaves the store untouched, raises no NotFound,
Forbidden or validation error, and produces no redirect or rendered
response. -/
theorem C10_all_bodies_pass (s : Store) (pid uid : Nat) (ca : Bool)
    (title bodyText : String) :
    Stub.index s = (s, none) ∧
    Stub.get_post s pid ca = (s, none) ∧
    Stub.create s uid title bodyText = (s, none) ∧
    Stub.update s pid uid title bodyText = (s, none) ∧
    Stub.delete s pid uid = (s, none) :=
  ⟨rfl, rfl, rfl, rfl, rfl⟩
